import Mathlib

/-! Shallow embedding of `src/agent_pipeline/utils/kelly_optimizer.py`: the
`AdvancedKellyOptimizer` position-sizing engine for prediction markets.

Modelling conventions:
* Python floats are modelled as real numbers (`ℝ`); the single float-exponent
  power in the time-decay penalty (`0.95 ** weeks_excess`) is modelled with
  `Real.rpow`.
* `time_to_resolution` is an `Int` (a Python `int` in the dataclass).
* The optional `existing_positions` list of dicts is modelled as a `List ℝ`
  of the `position_size` values; Python's truthiness test
  `if existing_positions:` is false for both `None` and `[]`, so `None` is
  identified with the empty list.
* The `reasoning` audit string of `KellyResult` (built by decimal float
  formatting, consumed by no code) is not modelled; every other field is.
* The `results` dict of `calculate_multi_market_kelly` is modelled as the
  insertion-ordered association list of `(market_id, KellyResult)` pairs.
-/

noncomputable section

/-- The `KellyMode` enum of the source. -/
inductive KellyMode
  | full
  | fractional_50
  | fractional_25
  | adaptive

/-- The `MarketOpportunity` dataclass: a betting opportunity in a
prediction market. -/
structure MarketOpportunity where
  probability_estimate : ℝ
  market_price : ℝ
  confidence_level : ℝ
  liquidity : ℝ
  bid_ask_spread : ℝ
  time_to_resolution : ℤ
  market_id : String

/-- The `KellyResult` dataclass (the `reasoning` audit string is not
modelled, see the module docstring). -/
structure KellyResult where
  kelly_fraction : ℝ
  adjusted_fraction : ℝ
  expected_value : ℝ
  confidence_adjustment : ℝ
  risk_adjustment : ℝ
  final_position_size : ℝ
  recommendation : String

/-- The constructor-time configuration of `AdvancedKellyOptimizer`. -/
structure Config where
  kelly_mode : KellyMode
  max_position_size : ℝ
  min_confidence_threshold : ℝ
  max_correlation_exposure : ℝ
  drawdown_protection : Bool
  stress_test : Bool

/-- The constructor defaults of `AdvancedKellyOptimizer.__init__`. -/
def default_config : Config :=
  { kelly_mode := .fractional_50
    max_position_size := 0.15
    min_confidence_threshold := 0.6
    max_correlation_exposure := 0.3
    drawdown_protection := true
    stress_test := true }

/-- `self.volatility_penalty` (assigned in `__init__`, never read by the
pipeline). -/
def volatility_penalty : ℝ := 0.8

/-- `self.liquidity_penalty` (fixed in `__init__`). -/
def liquidity_penalty : ℝ := 0.9

/-- `self.time_decay_factor` (fixed in `__init__`). -/
def time_decay_factor : ℝ := 0.95

/-- `_validate_opportunity`: the four parameter checks of the source
(probability strictly in (0,1), price strictly in (0,1), confidence in
[0,1], liquidity non-negative).  Note the source does not check
`bid_ask_spread` or `time_to_resolution`. -/
def validate_opportunity (opportunity : MarketOpportunity) : Prop :=
  (0 < opportunity.probability_estimate ∧ opportunity.probability_estimate < 1) ∧
  (0 < opportunity.market_price ∧ opportunity.market_price < 1) ∧
  (0 ≤ opportunity.confidence_level ∧ opportunity.confidence_level ≤ 1) ∧
  0 ≤ opportunity.liquidity

instance validate_opportunity_decidable (opportunity : MarketOpportunity) :
    Decidable (validate_opportunity opportunity) := by
  unfold validate_opportunity
  infer_instance

/-- `_calculate_base_kelly`: the classic Kelly fraction for a binary
market, clamped to be non-negative. -/
def calculate_base_kelly (opportunity : MarketOpportunity) : ℝ :=
  let p := opportunity.probability_estimate
  let price := opportunity.market_price
  if price ≤ 0 ∨ 1 ≤ price then 0
  else
    let odds := 1 / price - 1
    let q := 1 - p
    if odds ≤ 0 then 0
    else max ((p * odds - q) / odds) 0

/-- `_calculate_expected_value`: `p / price - 1`, or 0 for a degenerate
price. -/
def calculate_expected_value (opportunity : MarketOpportunity) : ℝ :=
  let p := opportunity.probability_estimate
  let price := opportunity.market_price
  if price ≤ 0 ∨ 1 ≤ price then 0
  else p / price - 1

/-- The linear interpolation step of `_get_confidence_multiplier`. -/
def linear_interpolate (x1 x2 y1 y2 confidence : ℝ) : ℝ :=
  y1 + (y2 - y1) * (confidence - x1) / (x2 - x1)

/-- `_get_confidence_multiplier` over the fixed curve built by
`_build_confidence_curve` ((0.5, 0), (0.6, 0.2), (0.7, 0.5), (0.8, 0.8),
(0.9, 0.95), (1, 1)): clamp below the lowest anchor and above the highest,
otherwise linearly interpolate on the first sorted anchor interval
containing `confidence` — written as the equivalent decision chain. -/
def get_confidence_multiplier (confidence : ℝ) : ℝ :=
  if confidence ≤ 0.5 then 0
  else if 1 ≤ confidence then 1
  else if confidence ≤ 0.6 then linear_interpolate 0.5 0.6 0 0.2 confidence
  else if confidence ≤ 0.7 then linear_interpolate 0.6 0.7 0.2 0.5 confidence
  else if confidence ≤ 0.8 then linear_interpolate 0.7 0.8 0.5 0.8 confidence
  else if confidence ≤ 0.9 then linear_interpolate 0.8 0.9 0.8 0.95 confidence
  else linear_interpolate 0.9 1 0.95 1 confidence

/-- `_apply_confidence_adjustment`: returns the pair
(adjusted kelly, reported penalty). -/
def apply_confidence_adjustment (cfg : Config) (kelly confidence : ℝ) : ℝ × ℝ :=
  if confidence < cfg.min_confidence_threshold then (0, 1)
  else
    let confidence_multiplier := get_confidence_multiplier confidence
    (kelly * confidence_multiplier, 1 - confidence_multiplier)

/-- `_apply_risk_adjustments`: sequential multiplicative liquidity, spread
and time-decay penalties; returns (adjusted kelly, summed penalty). -/
def apply_risk_adjustments (kelly : ℝ) (opportunity : MarketOpportunity) : ℝ × ℝ :=
  let a0 := kelly
  let t0 : ℝ := 0
  let a1 := if opportunity.liquidity < 1000 then a0 * liquidity_penalty else a0
  let t1 := if opportunity.liquidity < 1000 then t0 + (1 - liquidity_penalty) else t0
  let spread_mult := max (1 - opportunity.bid_ask_spread * 2) 0.5
  let a2 := if opportunity.bid_ask_spread > 0.05 then a1 * spread_mult else a1
  let t2 := if opportunity.bid_ask_spread > 0.05 then t1 + (1 - spread_mult) else t1
  let weeks_excess := ((opportunity.time_to_resolution : ℝ) - 2160) / 168
  let time_mult := time_decay_factor ^ weeks_excess
  let a3 := if opportunity.time_to_resolution > 2160 then a2 * time_mult else a2
  let t3 := if opportunity.time_to_resolution > 2160 then t2 + (1 - time_mult) else t2
  (a3, t3)

/-- `_apply_kelly_mode_scaling`. -/
def apply_kelly_mode_scaling (cfg : Config) (kelly : ℝ) : ℝ :=
  match cfg.kelly_mode with
  | .full => kelly
  | .fractional_50 => kelly * 0.5
  | .fractional_25 => kelly * 0.25
  | .adaptive =>
      if kelly > 0.2 then kelly * 0.25
      else if kelly > 0.1 then kelly * 0.5
      else kelly * 0.75

/-- `_apply_portfolio_constraints`: hard cap at `max_position_size`, then
the correlation throttle (the `opportunity` and `bankroll` arguments are
unused by the source body). -/
def apply_portfolio_constraints (cfg : Config) (kelly : ℝ)
    (opportunity : MarketOpportunity) (existing_positions : List ℝ)
    (bankroll : ℝ) : ℝ :=
  let capped := min kelly cfg.max_position_size
  if existing_positions = [] then capped
  else
    let total_exposure := existing_positions.sum
    if total_exposure > cfg.max_correlation_exposure then
      capped * max 0.5 (1 - (total_exposure - cfg.max_correlation_exposure))
    else capped

/-- The stressed copy of an opportunity built inside
`_stress_test_position` for one scenario. -/
def stressed_opportunity (opportunity : MarketOpportunity)
    (prob_error spread_increase : ℝ) : MarketOpportunity :=
  { probability_estimate := max 0.01 (opportunity.probability_estimate + prob_error)
    market_price := opportunity.market_price
    confidence_level := opportunity.confidence_level * 0.8
    liquidity := opportunity.liquidity * 0.7
    bid_ask_spread := opportunity.bid_ask_spread * spread_increase
    time_to_resolution := opportunity.time_to_resolution
    market_id := opportunity.market_id }

/-- `_stress_test_position`: minimum over the candidate and the three
half-scaled stressed-scenario Kelly values, times 0.8. -/
def stress_test_position (kelly : ℝ) (opportunity : MarketOpportunity) : ℝ :=
  let s1 := calculate_base_kelly (stressed_opportunity opportunity (-0.2) 2.0) * 0.5
  let s2 := calculate_base_kelly (stressed_opportunity opportunity (-0.15) 1.5) * 0.5
  let s3 := calculate_base_kelly (stressed_opportunity opportunity (-0.1) 1.2) * 0.5
  let worst_case_kelly := min (min (min kelly s1) s2) s3
  worst_case_kelly * 0.8

/-- `_generate_recommendation`. -/
def generate_recommendation (kelly expected_value : ℝ)
    (opportunity : MarketOpportunity) : String :=
  if kelly < 0.01 ∨ expected_value ≤ 0 then "HOLD"
  else if kelly ≥ 0.05 then
    if opportunity.probability_estimate > opportunity.market_price then "BUY_YES"
    else "BUY_NO"
  else "SMALL_BUY"

/-- `calculate_optimal_position`: validation, base Kelly, expected value,
confidence adjustment, risk adjustments, mode scaling, portfolio
constraints, optional stress test, recommendation. -/
def calculate_optimal_position (cfg : Config) (opportunity : MarketOpportunity)
    (bankroll : ℝ) (existing_positions : List ℝ) : KellyResult :=
  if validate_opportunity opportunity then
    let base_kelly := calculate_base_kelly opportunity
    let expected_value := calculate_expected_value opportunity
    let confidence := apply_confidence_adjustment cfg base_kelly opportunity.confidence_level
    let risk := apply_risk_adjustments confidence.1 opportunity
    let mode_adjusted_kelly := apply_kelly_mode_scaling cfg risk.1
    let constrained_kelly :=
      apply_portfolio_constraints cfg mode_adjusted_kelly opportunity existing_positions bankroll
    let final_kelly :=
      if cfg.stress_test then stress_test_position constrained_kelly opportunity
      else constrained_kelly
    { kelly_fraction := base_kelly
      adjusted_fraction := final_kelly
      expected_value := expected_value
      confidence_adjustment := confidence.2
      risk_adjustment := risk.2
      final_position_size := final_kelly
      recommendation := generate_recommendation final_kelly expected_value opportunity }
  else
    { kelly_fraction := 0
      adjusted_fraction := 0
      expected_value := 0
      confidence_adjustment := 0
      risk_adjustment := 0
      final_position_size := 0
      recommendation := "HOLD" }

/-- The per-opportunity adjusted fractions computed by the correlated
branch of `calculate_multi_market_kelly` (each opportunity is evaluated
with the default `existing_positions=None`). -/
def individual_adjusted_fractions (cfg : Config)
    (opportunities : List MarketOpportunity) (bankroll : ℝ) : List ℝ :=
  opportunities.map
    (fun opp => (calculate_optimal_position cfg opp bankroll []).adjusted_fraction)

/-- The budget scaling of the correlated branch: scale all fractions by
`max_correlation_exposure / total` when the total exceeds the budget. -/
def multi_market_fractions (cfg : Config)
    (opportunities : List MarketOpportunity) (bankroll : ℝ) : List ℝ :=
  let individual_kellys := individual_adjusted_fractions cfg opportunities bankroll
  let total_kelly := individual_kellys.sum
  if total_kelly > cfg.max_correlation_exposure then
    individual_kellys.map (fun k => k * (cfg.max_correlation_exposure / total_kelly))
  else individual_kellys

/-- The `KellyResult` record built for one market in the correlated branch
of `calculate_multi_market_kelly`. -/
def multi_market_result (cfg : Config) (opportunity : MarketOpportunity)
    (adjusted_kelly : ℝ) : KellyResult :=
  { kelly_fraction := adjusted_kelly
    adjusted_fraction := adjusted_kelly
    expected_value := calculate_expected_value opportunity
    confidence_adjustment := 0
    risk_adjustment := 0
    final_position_size := adjusted_kelly
    recommendation :=
      generate_recommendation adjusted_kelly (calculate_expected_value opportunity)
        opportunity }

/-- `calculate_multi_market_kelly`.  The correlation matrix argument is
only tested for presence in the source (its entries are never read); with
no matrix each opportunity is evaluated independently, otherwise the
individual adjusted fractions are budget-scaled. -/
def calculate_multi_market_kelly (cfg : Config)
    (opportunities : List MarketOpportunity)
    (correlations : Option (List (List ℝ))) (bankroll : ℝ) :
    List (String × KellyResult) :=
  match correlations with
  | none =>
      opportunities.map
        (fun opp => (opp.market_id, calculate_optimal_position cfg opp bankroll []))
  | some _ =>
      (opportunities.zip (multi_market_fractions cfg opportunities bankroll)).map
        (fun x => (x.1.market_id, multi_market_result cfg x.1 x.2))

/-- The example opportunity of `demo_kelly_optimizer`. -/
def demo_opportunity : MarketOpportunity :=
  { probability_estimate := 0.72
    market_price := 0.35
    confidence_level := 0.85
    liquidity := 5000
    bid_ask_spread := 0.02
    time_to_resolution := 720
    market_id := "btc_100k_2024" }

/-- The demo opportunity with confidence below the default threshold. -/
def opp_low_confidence : MarketOpportunity :=
  { demo_opportunity with confidence_level := 0.5 }

/-- The demo opportunity with a negative spread (which the source
validator does not check). -/
def opp_negative_spread : MarketOpportunity :=
  { demo_opportunity with bid_ask_spread := -0.01 }

/-- An opportunity with an out-of-range probability estimate. -/
def opp_invalid_probability : MarketOpportunity :=
  { demo_opportunity with probability_estimate := 1.5 }

/-- A near-certain market priced at 0.99 with a higher estimate. -/
def opp_high_probability : MarketOpportunity :=
  { demo_opportunity with probability_estimate := 0.995, market_price := 0.99 }

/-- A market priced at 0.99 with a mid-range estimate. -/
def opp_mid_probability : MarketOpportunity :=
  { demo_opportunity with probability_estimate := 0.5, market_price := 0.99 }

/-- The base Kelly fraction is clamped to be non-negative on every path. -/
lemma calculate_base_kelly_nonneg (opportunity : MarketOpportunity) :
    0 ≤ calculate_base_kelly opportunity := by
  unfold calculate_base_kelly
  dsimp only
  split_ifs <;> simp [le_max_right]

/-- Interpolation stays at or above its left anchor value when the anchors
are ordered and the point lies to the right of the left anchor. -/
lemma linear_interpolate_nonneg (x1 x2 y1 y2 c : ℝ) (hy1 : 0 ≤ y1)
    (hy : y1 ≤ y2) (hc : x1 ≤ c) (hx : x1 < x2) :
    0 ≤ linear_interpolate x1 x2 y1 y2 c := by
  unfold linear_interpolate
  have h : 0 ≤ (y2 - y1) * (c - x1) / (x2 - x1) :=
    div_nonneg (mul_nonneg (by linarith) (by linarith)) (by linarith)
  linarith

/-- The confidence multiplier is non-negative for every confidence. -/
lemma get_confidence_multiplier_nonneg (c : ℝ) :
    0 ≤ get_confidence_multiplier c := by
  unfold get_confidence_multiplier
  split_ifs with h1 h2 h3 h4 h5 h6
  · norm_num
  · norm_num
  · exact linear_interpolate_nonneg _ _ _ _ _ (by norm_num) (by norm_num)
      (by linarith [not_le.mp h1]) (by norm_num)
  · exact linear_interpolate_nonneg _ _ _ _ _ (by norm_num) (by norm_num)
      (by linarith [not_le.mp h3]) (by norm_num)
  · exact linear_interpolate_nonneg _ _ _ _ _ (by norm_num) (by norm_num)
      (by linarith [not_le.mp h4]) (by norm_num)
  · exact linear_interpolate_nonneg _ _ _ _ _ (by norm_num) (by norm_num)
      (by linarith [not_le.mp h5]) (by norm_num)
  · exact linear_interpolate_nonneg _ _ _ _ _ (by norm_num) (by norm_num)
      (by linarith [not_le.mp h6]) (by norm_num)

/-- Confidence adjustment preserves non-negativity of the fraction. -/
lemma apply_confidence_adjustment_fst_nonneg (cfg : Config) (kelly c : ℝ)
    (hk : 0 ≤ kelly) : 0 ≤ (apply_confidence_adjustment cfg kelly c).1 := by
  unfold apply_confidence_adjustment
  split_ifs
  · norm_num
  · exact mul_nonneg hk (get_confidence_multiplier_nonneg c)

/-- Risk adjustments preserve non-negativity of the fraction. -/
lemma apply_risk_adjustments_fst_nonneg (kelly : ℝ)
    (opportunity : MarketOpportunity) (hk : 0 ≤ kelly) :
    0 ≤ (apply_risk_adjustments kelly opportunity).1 := by
  unfold apply_risk_adjustments
  dsimp only
  have h9 : (0 : ℝ) ≤ liquidity_penalty := by norm_num [liquidity_penalty]
  have hs : (0 : ℝ) ≤ max (1 - opportunity.bid_ask_spread * 2) 0.5 :=
    le_trans (by norm_num) (le_max_right _ _)
  have ht : (0 : ℝ) ≤
      time_decay_factor ^ (((opportunity.time_to_resolution : ℝ) - 2160) / 168) :=
    Real.rpow_nonneg (by norm_num [time_decay_factor]) _
  split_ifs <;> apply_rules [mul_nonneg]

/-- Mode scaling preserves non-negativity of the fraction. -/
lemma apply_kelly_mode_scaling_nonneg (cfg : Config) (kelly : ℝ)
    (hk : 0 ≤ kelly) : 0 ≤ apply_kelly_mode_scaling cfg kelly := by
  unfold apply_kelly_mode_scaling
  cases cfg.kelly_mode <;> dsimp only
  · exact hk
  · exact mul_nonneg hk (by norm_num)
  · exact mul_nonneg hk (by norm_num)
  · split_ifs <;> exact mul_nonneg hk (by norm_num)

/-- Portfolio constraints keep the fraction in `[0, max_position_size]`
whenever the incoming fraction and the cap are non-negative. -/
lemma apply_portfolio_constraints_bounds (cfg : Config) (kelly : ℝ)
    (opportunity : MarketOpportunity) (existing_positions : List ℝ)
    (bankroll : ℝ) (hk : 0 ≤ kelly) (hmax : 0 ≤ cfg.max_position_size) :
    0 ≤ apply_portfolio_constraints cfg kelly opportunity existing_positions bankroll ∧
    apply_portfolio_constraints cfg kelly opportunity existing_positions bankroll ≤
      cfg.max_position_size := by
  unfold apply_portfolio_constraints
  dsimp only
  have hmin0 : 0 ≤ min kelly cfg.max_position_size := le_min hk hmax
  have hminle : min kelly cfg.max_position_size ≤ cfg.max_position_size :=
    min_le_right _ _
  split_ifs with h1 h2
  · exact ⟨hmin0, hminle⟩
  · have hr0 : (0 : ℝ) ≤
        max 0.5 (1 - (existing_positions.sum - cfg.max_correlation_exposure)) :=
      le_trans (by norm_num) (le_max_left _ _)
    have hr1 : max 0.5 (1 - (existing_positions.sum - cfg.max_correlation_exposure)) ≤ 1 :=
      max_le (by norm_num) (by linarith)
    refine ⟨mul_nonneg hmin0 hr0, ?_⟩
    calc min kelly cfg.max_position_size *
          max 0.5 (1 - (existing_positions.sum - cfg.max_correlation_exposure)) ≤
        min kelly cfg.max_position_size := mul_le_of_le_one_right hmin0 hr1
      _ ≤ cfg.max_position_size := hminle
  · exact ⟨hmin0, hminle⟩

/-- The stress test keeps a non-negative candidate fraction non-negative
and never increases it. -/
lemma stress_test_position_bounds (kelly : ℝ)
    (opportunity : MarketOpportunity) (hk : 0 ≤ kelly) :
    0 ≤ stress_test_position kelly opportunity ∧
    stress_test_position kelly opportunity ≤ kelly := by
  unfold stress_test_position
  dsimp only
  have hs1 := calculate_base_kelly_nonneg (stressed_opportunity opportunity (-0.2) 2.0)
  have hs2 := calculate_base_kelly_nonneg (stressed_opportunity opportunity (-0.15) 1.5)
  have hs3 := calculate_base_kelly_nonneg (stressed_opportunity opportunity (-0.1) 1.2)
  have hw0 : 0 ≤ min (min (min kelly
      (calculate_base_kelly (stressed_opportunity opportunity (-0.2) 2.0) * 0.5))
      (calculate_base_kelly (stressed_opportunity opportunity (-0.15) 1.5) * 0.5))
      (calculate_base_kelly (stressed_opportunity opportunity (-0.1) 1.2) * 0.5) :=
    le_min (le_min (le_min hk (mul_nonneg hs1 (by norm_num)))
      (mul_nonneg hs2 (by norm_num))) (mul_nonneg hs3 (by norm_num))
  have hwk : min (min (min kelly
      (calculate_base_kelly (stressed_opportunity opportunity (-0.2) 2.0) * 0.5))
      (calculate_base_kelly (stressed_opportunity opportunity (-0.15) 1.5) * 0.5))
      (calculate_base_kelly (stressed_opportunity opportunity (-0.1) 1.2) * 0.5) ≤ kelly :=
    le_trans (min_le_left _ _) (le_trans (min_le_left _ _) (min_le_left _ _))
  constructor
  · exact mul_nonneg hw0 (by norm_num)
  · calc _ ≤ _ := mul_le_of_le_one_right hw0 (by norm_num)
    _ ≤ kelly := hwk

/-- Risk adjustments send a zero fraction to zero. -/
lemma apply_risk_adjustments_fst_zero (opportunity : MarketOpportunity) :
    (apply_risk_adjustments 0 opportunity).1 = 0 := by
  unfold apply_risk_adjustments
  dsimp only
  split_ifs <;> simp

/-- Mode scaling sends a zero fraction to zero. -/
lemma apply_kelly_mode_scaling_zero (cfg : Config) :
    apply_kelly_mode_scaling cfg 0 = 0 := by
  unfold apply_kelly_mode_scaling
  cases cfg.kelly_mode <;> norm_num

/-- Portfolio constraints send a zero fraction to zero when the cap is
non-negative. -/
lemma apply_portfolio_constraints_zero (cfg : Config)
    (opportunity : MarketOpportunity) (existing_positions : List ℝ)
    (bankroll : ℝ) (hmax : 0 ≤ cfg.max_position_size) :
    apply_portfolio_constraints cfg 0 opportunity existing_positions bankroll = 0 := by
  unfold apply_portfolio_constraints
  dsimp only
  rw [min_eq_left hmax]
  split_ifs <;> simp

/-- The stress test sends a zero candidate fraction to zero. -/
lemma stress_test_position_zero (opportunity : MarketOpportunity) :
    stress_test_position 0 opportunity = 0 := by
  unfold stress_test_position
  dsimp only
  have hs1 := calculate_base_kelly_nonneg (stressed_opportunity opportunity (-0.2) 2.0)
  have hs2 := calculate_base_kelly_nonneg (stressed_opportunity opportunity (-0.15) 1.5)
  have hs3 := calculate_base_kelly_nonneg (stressed_opportunity opportunity (-0.1) 1.2)
  rw [min_eq_left (mul_nonneg hs1 (by norm_num)),
    min_eq_left (mul_nonneg hs2 (by norm_num)),
    min_eq_left (mul_nonneg hs3 (by norm_num)), zero_mul]

/-- C1: for every opportunity, bankroll, existing-positions list and
configuration with a non-negative `max_position_size`, the
`final_position_size` returned by `calculate_optimal_position` is at most
the configured `max_position_size`, with or without stress testing and on
the invalid-input path. -/
theorem C1_final_position_within_cap (cfg : Config)
    (opportunity : MarketOpportunity) (bankroll : ℝ)
    (existing_positions : List ℝ) (hmax : 0 ≤ cfg.max_position_size) :
    (calculate_optimal_position cfg opportunity bankroll
      existing_positions).final_position_size ≤ cfg.max_position_size := by
  unfold calculate_optimal_position
  by_cases hv : validate_opportunity opportunity
  · rw [if_pos hv]
    dsimp only
    have h1 : 0 ≤ (apply_confidence_adjustment cfg (calculate_base_kelly opportunity)
        opportunity.confidence_level).1 :=
      apply_confidence_adjustment_fst_nonneg cfg _ _
        (calculate_base_kelly_nonneg opportunity)
    have h2 := apply_risk_adjustments_fst_nonneg _ opportunity h1
    have h3 := apply_kelly_mode_scaling_nonneg cfg _ h2
    have h4 := apply_portfolio_constraints_bounds cfg _ opportunity
      existing_positions bankroll h3 hmax
    by_cases hs : cfg.stress_test = true
    · rw [if_pos hs]
      exact le_trans (stress_test_position_bounds _ opportunity h4.1).2 h4.2
    · rw [if_neg hs]
      exact h4.2
  · rw [if_neg hv]
    exact hmax

/-- Witness for C1 at the demo configuration and opportunity. -/
theorem C1_final_position_within_cap_witness :
    (calculate_optimal_position default_config demo_opportunity 1000
      []).final_position_size ≤ default_config.max_position_size :=
  C1_final_position_within_cap default_config demo_opportunity 1000 []
    (by norm_num [default_config])

/-- C2 (amended): an opportunity failing one of the four bounds that
`_validate_opportunity` actually checks (probability in (0,1), price in
(0,1), confidence in [0,1], liquidity ≥ 0) short-circuits to the all-zero
HOLD result; negative `bid_ask_spread` and negative `time_to_resolution`
are not validated and do not short-circuit. -/
theorem C2_invalid_opportunity_short_circuits (cfg : Config)
    (opportunity : MarketOpportunity) (bankroll : ℝ)
    (existing_positions : List ℝ) (hv : ¬ validate_opportunity opportunity) :
    calculate_optimal_position cfg opportunity bankroll existing_positions =
      { kelly_fraction := 0
        adjusted_fraction := 0
        expected_value := 0
        confidence_adjustment := 0
        risk_adjustment := 0
        final_position_size := 0
        recommendation := "HOLD" } := by
  unfold calculate_optimal_position
  rw [if_neg hv]

/-- Witness for the amended C2 at an out-of-range probability. -/
theorem C2_invalid_opportunity_short_circuits_witness :
    calculate_optimal_position default_config opp_invalid_probability 1000 [] =
      { kelly_fraction := 0
        adjusted_fraction := 0
        expected_value := 0
        confidence_adjustment := 0
        risk_adjustment := 0
        final_position_size := 0
        recommendation := "HOLD" } :=
  C2_invalid_opportunity_short_circuits default_config opp_invalid_probability
    1000 []
    (by norm_num [validate_opportunity, opp_invalid_probability, demo_opportunity])

/-- C3: a valid opportunity whose confidence is below the configured
threshold yields a zero `adjusted_fraction` and hence a zero
`final_position_size`, for every kelly mode, existing-positions list and
stress-test setting, whenever the position cap is non-negative. -/
theorem C3_low_confidence_zero_position (cfg : Config)
    (opportunity : MarketOpportunity) (bankroll : ℝ)
    (existing_positions : List ℝ) (hv : validate_opportunity opportunity)
    (hc : opportunity.confidence_level < cfg.min_confidence_threshold)
    (hmax : 0 ≤ cfg.max_position_size) :
    (calculate_optimal_position cfg opportunity bankroll
      existing_positions).adjusted_fraction = 0 ∧
    (calculate_optimal_position cfg opportunity bankroll
      existing_positions).final_position_size = 0 := by
  unfold calculate_optimal_position
  rw [if_pos hv]
  dsimp only
  have hca : (apply_confidence_adjustment cfg (calculate_base_kelly opportunity)
      opportunity.confidence_level).1 = 0 := by
    unfold apply_confidence_adjustment
    rw [if_pos hc]
  rw [hca, apply_risk_adjustments_fst_zero, apply_kelly_mode_scaling_zero,
    apply_portfolio_constraints_zero cfg opportunity existing_positions bankroll hmax,
    stress_test_position_zero]
  split_ifs <;> exact ⟨rfl, rfl⟩

/-- Witness for C3 at the demo opportunity with confidence 0.5. -/
theorem C3_low_confidence_zero_position_witness :
    (calculate_optimal_position default_config opp_low_confidence 1000
      []).adjusted_fraction = 0 ∧
    (calculate_optimal_position default_config opp_low_confidence 1000
      []).final_position_size = 0 :=
  C3_low_confidence_zero_position default_config opp_low_confidence 1000 []
    (by norm_num [validate_opportunity, opp_low_confidence, demo_opportunity])
    (by norm_num [opp_low_confidence, demo_opportunity, default_config])
    (by norm_num [default_config])

/-- C9: `calculate_optimal_position` is independent of the bankroll
argument — two evaluations differing only in bankroll return identical
`KellyResult` records. -/
theorem C9_bankroll_independence (cfg : Config)
    (opportunity : MarketOpportunity) (existing_positions : List ℝ)
    (b1 b2 : ℝ) :
    calculate_optimal_position cfg opportunity b1 existing_positions =
      calculate_optimal_position cfg opportunity b2 existing_positions := rfl

/-- C4: the base Kelly calculation returns 0 when the market price is
outside (0,1) or the derived odds `1/price - 1` are non-positive, and
otherwise returns `max ((p*b - (1-p))/b) 0`; consequently it is
non-negative whenever the price lies in (0,1). -/
theorem C4_base_kelly_formula (opportunity : MarketOpportunity) :
    ((¬ (0 < opportunity.market_price ∧ opportunity.market_price < 1) ∨
        1 / opportunity.market_price - 1 ≤ 0) →
      calculate_base_kelly opportunity = 0) ∧
    ((0 < opportunity.market_price ∧ opportunity.market_price < 1) →
      ¬ (1 / opportunity.market_price - 1 ≤ 0) →
      calculate_base_kelly opportunity =
        max ((opportunity.probability_estimate * (1 / opportunity.market_price - 1) -
              (1 - opportunity.probability_estimate)) /
             (1 / opportunity.market_price - 1)) 0) ∧
    ((0 < opportunity.market_price ∧ opportunity.market_price < 1) →
      0 ≤ calculate_base_kelly opportunity) := by
  refine ⟨?_, ?_, fun _ => calculate_base_kelly_nonneg opportunity⟩
  · intro h
    unfold calculate_base_kelly
    dsimp only
    rcases h with h | h
    · rw [not_and_or, not_lt, not_lt] at h
      rw [if_pos h]
    · by_cases h1 : opportunity.market_price ≤ 0 ∨ 1 ≤ opportunity.market_price
      · rw [if_pos h1]
      · rw [if_neg h1, if_pos h]
  · intro h1 h2
    unfold calculate_base_kelly
    dsimp only
    rw [if_neg (by push_neg; exact h1), if_neg h2]

/-- Witness for C4 at the demo opportunity. -/
theorem C4_base_kelly_formula_witness :
    calculate_base_kelly demo_opportunity =
      max ((demo_opportunity.probability_estimate *
            (1 / demo_opportunity.market_price - 1) -
            (1 - demo_opportunity.probability_estimate)) /
           (1 / demo_opportunity.market_price - 1)) 0 ∧
    0 ≤ calculate_base_kelly demo_opportunity :=
  ⟨(C4_base_kelly_formula demo_opportunity).2.1
      (by norm_num [demo_opportunity]) (by norm_num [demo_opportunity]),
    (C4_base_kelly_formula demo_opportunity).2.2
      (by norm_num [demo_opportunity])⟩

/-- C5: the recommendation is HOLD when the final fraction is below 0.01
or the expected value is non-positive; otherwise BUY_YES when the fraction
is at least 0.05 and the probability estimate exceeds the market price,
BUY_NO when the fraction is at least 0.05 otherwise, and SMALL_BUY for the
remaining fractions. -/
theorem C5_recommendation_policy (kelly expected_value : ℝ)
    (opportunity : MarketOpportunity) :
    ((kelly < 0.01 ∨ expected_value ≤ 0) →
      generate_recommendation kelly expected_value opportunity = "HOLD") ∧
    (¬ (kelly < 0.01 ∨ expected_value ≤ 0) → 0.05 ≤ kelly →
      opportunity.probability_estimate > opportunity.market_price →
      generate_recommendation kelly expected_value opportunity = "BUY_YES") ∧
    (¬ (kelly < 0.01 ∨ expected_value ≤ 0) → 0.05 ≤ kelly →
      ¬ opportunity.probability_estimate > opportunity.market_price →
      generate_recommendation kelly expected_value opportunity = "BUY_NO") ∧
    (¬ (kelly < 0.01 ∨ expected_value ≤ 0) → kelly < 0.05 →
      generate_recommendation kelly expected_value opportunity = "SMALL_BUY") := by
  refine ⟨?_, ?_, ?_, ?_⟩
  · intro h
    unfold generate_recommendation
    rw [if_pos h]
  · intro h h5 hp
    unfold generate_recommendation
    rw [if_neg h, if_pos h5, if_pos hp]
  · intro h h5 hp
    unfold generate_recommendation
    rw [if_neg h, if_pos h5, if_neg hp]
  · intro h h5
    unfold generate_recommendation
    rw [if_neg h, if_neg (not_le.mpr h5)]

/-- Witness for C5 on the demo opportunity with a large fraction and a
positive expected value. -/
theorem C5_recommendation_policy_witness :
    generate_recommendation 0.1 1 demo_opportunity = "BUY_YES" :=
  (C5_recommendation_policy 0.1 1 demo_opportunity).2.1
    (by norm_num) (by norm_num) (by norm_num [demo_opportunity])

/-- C7: for every opportunity and non-negative pre-stress candidate
fraction, the stress-tested position never exceeds the candidate. -/
theorem C7_stress_test_never_increases (kelly : ℝ)
    (opportunity : MarketOpportunity) (hk : 0 ≤ kelly) :
    stress_test_position kelly opportunity ≤ kelly :=
  (stress_test_position_bounds kelly opportunity hk).2

/-- Witness for C7 at the demo opportunity and candidate 0.15. -/
theorem C7_stress_test_never_increases_witness :
    stress_test_position 0.15 demo_opportunity ≤ 0.15 :=
  C7_stress_test_never_increases 0.15 demo_opportunity (by norm_num)

/-- C6 (amended): with the market priced at 0.99 the base Kelly fraction
is 0 for every probability estimate up to 0.99; estimates above 0.99 give
a strictly positive fraction (see the counterexample). -/
theorem C6_base_kelly_zero_at_price_099 (opportunity : MarketOpportunity)
    (hprice : opportunity.market_price = 0.99)
    (hp0 : 0 < opportunity.probability_estimate)
    (hp1 : opportunity.probability_estimate ≤ 0.99) :
    calculate_base_kelly opportunity = 0 := by
  unfold calculate_base_kelly
  dsimp only
  rw [hprice]
  rw [if_neg (by norm_num), if_neg (by norm_num)]
  apply max_eq_right
  apply div_nonpos_of_nonpos_of_nonneg
  · nlinarith [hp1]
  · norm_num

/-- Witness for the amended C6 at probability estimate 0.5. -/
theorem C6_base_kelly_zero_at_price_099_witness :
    calculate_base_kelly opp_mid_probability = 0 :=
  C6_base_kelly_zero_at_price_099 opp_mid_probability
    (by norm_num [opp_mid_probability, demo_opportunity])
    (by norm_num [opp_mid_probability, demo_opportunity])
    (by norm_num [opp_mid_probability, demo_opportunity])

/-- C6 counterexample: at probability estimate 0.995 (inside (0,1)) and
market price 0.99 the base Kelly fraction is 0.5, not 0. -/
theorem C6_counterexample_price_099 :
    (0 < opp_high_probability.probability_estimate ∧
      opp_high_probability.probability_estimate < 1) ∧
    opp_high_probability.market_price = 0.99 ∧
    calculate_base_kelly opp_high_probability ≠ 0 := by
  refine ⟨by norm_num [opp_high_probability, demo_opportunity],
    by norm_num [opp_high_probability, demo_opportunity], ?_⟩
  have h : calculate_base_kelly opp_high_probability = 0.5 := by
    unfold calculate_base_kelly
    dsimp only
    norm_num [opp_high_probability, demo_opportunity, max_def]
  rw [h]
  norm_num

/-- C2 counterexample: an opportunity with a negative `bid_ask_spread`
(failing the §3 data-model bound) passes the source validator and runs the
whole pipeline, producing a BUY_YES recommendation with a non-zero
position instead of the zero/HOLD short-circuit. -/
theorem C2_counterexample_negative_spread :
    opp_negative_spread.bid_ask_spread < 0 ∧
    (calculate_optimal_position default_config opp_negative_spread 1000
      []).recommendation ≠ "HOLD" ∧
    (calculate_optimal_position default_config opp_negative_spread 1000
      []).final_position_size ≠ 0 := by
  have hv : validate_opportunity opp_negative_spread := by
    norm_num [validate_opportunity, opp_negative_spread, demo_opportunity]
  have hbase : calculate_base_kelly opp_negative_spread = 37 / 65 := by
    unfold calculate_base_kelly
    norm_num [opp_negative_spread, demo_opportunity, max_def]
  have hca : apply_confidence_adjustment default_config (37 / 65)
      opp_negative_spread.confidence_level = (259 / 520, 1 / 8) := by
    unfold apply_confidence_adjustment get_confidence_multiplier linear_interpolate
    norm_num [opp_negative_spread, demo_opportunity, default_config]
  have hra : apply_risk_adjustments (259 / 520) opp_negative_spread =
      (259 / 520, 0) := by
    unfold apply_risk_adjustments
    norm_num [opp_negative_spread, demo_opportunity]
  have hmode : apply_kelly_mode_scaling default_config (259 / 520) = 259 / 1040 := by
    unfold apply_kelly_mode_scaling
    norm_num [default_config]
  have hport : apply_portfolio_constraints default_config (259 / 1040)
      opp_negative_spread [] 1000 = 3 / 20 := by
    unfold apply_portfolio_constraints
    norm_num [default_config, min_def]
  have hs1 : calculate_base_kelly (stressed_opportunity opp_negative_spread (-0.2) 2.0) =
      17 / 65 := by
    unfold calculate_base_kelly stressed_opportunity
    norm_num [opp_negative_spread, demo_opportunity, max_def]
  have hs2 : calculate_base_kelly (stressed_opportunity opp_negative_spread (-0.15) 1.5) =
      22 / 65 := by
    unfold calculate_base_kelly stressed_opportunity
    norm_num [opp_negative_spread, demo_opportunity, max_def]
  have hs3 : calculate_base_kelly (stressed_opportunity opp_negative_spread (-0.1) 1.2) =
      27 / 65 := by
    unfold calculate_base_kelly stressed_opportunity
    norm_num [opp_negative_spread, demo_opportunity, max_def]
  have hstress : stress_test_position (3 / 20) opp_negative_spread = 34 / 325 := by
    unfold stress_test_position
    rw [hs1, hs2, hs3]
    norm_num [min_def]
  have hrec : generate_recommendation (34 / 325)
      (calculate_expected_value opp_negative_spread) opp_negative_spread = "BUY_YES" := by
    unfold generate_recommendation calculate_expected_value
    norm_num [opp_negative_spread, demo_opportunity]
  have hres : calculate_optimal_position default_config opp_negative_spread 1000 [] =
      { kelly_fraction := 37 / 65
        adjusted_fraction := 34 / 325
        expected_value := calculate_expected_value opp_negative_spread
        confidence_adjustment := 1 / 8
        risk_adjustment := 0
        final_position_size := 34 / 325
        recommendation := "BUY_YES" } := by
    unfold calculate_optimal_position
    rw [if_pos hv]
    dsimp only
    rw [hbase, hca]
    dsimp only
    rw [hra]
    dsimp only
    rw [hmode, hport]
    have hst : default_config.stress_test = true := rfl
    rw [if_pos hst, hstress, hrec]
  refine ⟨by norm_num [opp_negative_spread, demo_opportunity], ?_, ?_⟩
  · rw [hres]
    decide
  · rw [hres]
    norm_num

/-- The budget-scaled fraction list has one entry per opportunity. -/
lemma multi_market_fractions_length (cfg : Config)
    (opportunities : List MarketOpportunity) (bankroll : ℝ) :
    (multi_market_fractions cfg opportunities bankroll).length =
      opportunities.length := by
  unfold multi_market_fractions individual_adjusted_fractions
  dsimp only
  split_ifs <;> simp

/-- The final position sizes of the correlated branch are exactly the
budget-scaled fraction list. -/
lemma multi_market_final_sizes (cfg : Config)
    (opportunities : List MarketOpportunity) (M : List (List ℝ))
    (bankroll : ℝ) :
    (calculate_multi_market_kelly cfg opportunities (some M) bankroll).map
        (fun r => r.2.final_position_size) =
      multi_market_fractions cfg opportunities bankroll := by
  unfold calculate_multi_market_kelly
  rw [List.map_map]
  have h : ((fun r : String × KellyResult => r.2.final_position_size) ∘
      (fun x : MarketOpportunity × ℝ =>
        (x.1.market_id, multi_market_result cfg x.1 x.2))) = Prod.snd := by
    funext x
    rfl
  rw [h, List.map_snd_zip]
  exact le_of_eq (multi_market_fractions_length cfg opportunities bankroll)

/-- C8: in the correlated branch, when the individually computed adjusted
fractions sum above `max_correlation_exposure` every returned position
size is the individual fraction scaled by `budget / sum` and the returned
sizes sum to exactly the budget; otherwise the individual fractions are
returned unscaled. -/
theorem C8_multi_market_budget_scaling (cfg : Config)
    (opportunities : List MarketOpportunity) (M : List (List ℝ))
    (bankroll : ℝ) (hbudget : 0 ≤ cfg.max_correlation_exposure) :
    ((individual_adjusted_fractions cfg opportunities bankroll).sum >
        cfg.max_correlation_exposure →
      (calculate_multi_market_kelly cfg opportunities (some M) bankroll).map
          (fun r => r.2.final_position_size) =
        (individual_adjusted_fractions cfg opportunities bankroll).map
          (fun k => k * (cfg.max_correlation_exposure /
            (individual_adjusted_fractions cfg opportunities bankroll).sum)) ∧
      ((calculate_multi_market_kelly cfg opportunities (some M) bankroll).map
          (fun r => r.2.final_position_size)).sum =
        cfg.max_correlation_exposure) ∧
    ((individual_adjusted_fractions cfg opportunities bankroll).sum ≤
        cfg.max_correlation_exposure →
      (calculate_multi_market_kelly cfg opportunities (some M) bankroll).map
          (fun r => r.2.final_position_size) =
        individual_adjusted_fractions cfg opportunities bankroll) := by
  have hm := multi_market_final_sizes cfg opportunities M bankroll
  constructor
  · intro h
    have hfrac : multi_market_fractions cfg opportunities bankroll =
        (individual_adjusted_fractions cfg opportunities bankroll).map
          (fun k => k * (cfg.max_correlation_exposure /
            (individual_adjusted_fractions cfg opportunities bankroll).sum)) := by
      unfold multi_market_fractions
      rw [if_pos h]
    refine ⟨hm.trans hfrac, ?_⟩
    rw [hm, hfrac]
    have hS : (individual_adjusted_fractions cfg opportunities bankroll).sum ≠ 0 :=
      ne_of_gt (lt_of_le_of_lt hbudget h)
    rw [List.sum_map_mul_right, List.map_id', mul_comm,
      div_mul_cancel₀ _ hS]
  · intro h
    have hfrac : multi_market_fractions cfg opportunities bankroll =
        individual_adjusted_fractions cfg opportunities bankroll := by
      unfold multi_market_fractions
      rw [if_neg (not_lt.mpr h)]
    exact hm.trans hfrac

/-- Witness for C8 with an empty opportunity list (sum 0 within budget). -/
theorem C8_multi_market_budget_scaling_witness :
    (calculate_multi_market_kelly default_config [] (some []) 1000).map
        (fun r => r.2.final_position_size) =
      individual_adjusted_fractions default_config [] 1000 :=
  (C8_multi_market_budget_scaling default_config [] [] 1000
      (by norm_num [default_config])).2
    (by norm_num [individual_adjusted_fractions, default_config])

/-- C10: every result of the correlated branch reports zero confidence and
risk adjustments, and its `kelly_fraction`, `adjusted_fraction` and
`final_position_size` all equal the budget-scaled fraction; the per-market
base Kelly and penalty figures of the individual evaluations are not
reported. -/
theorem C10_multi_market_reported_fields (cfg : Config)
    (opportunities : List MarketOpportunity) (M : List (List ℝ))
    (bankroll : ℝ) :
    (calculate_multi_market_kelly cfg opportunities (some M) bankroll).map
        (fun r => r.2.confidence_adjustment) =
      List.replicate opportunities.length 0 ∧
    (calculate_multi_market_kelly cfg opportunities (some M) bankroll).map
        (fun r => r.2.risk_adjustment) =
      List.replicate opportunities.length 0 ∧
    (calculate_multi_market_kelly cfg opportunities (some M) bankroll).map
        (fun r => r.2.kelly_fraction) =
      multi_market_fractions cfg opportunities bankroll ∧
    (calculate_multi_market_kelly cfg opportunities (some M) bankroll).map
        (fun r => r.2.adjusted_fraction) =
      multi_market_fractions cfg opportunities bankroll ∧
    (calculate_multi_market_kelly cfg opportunities (some M) bankroll).map
        (fun r => r.2.final_position_size) =
      multi_market_fractions cfg opportunities bankroll := by
  have hlen : (opportunities.zip
      (multi_market_fractions cfg opportunities bankroll)).length =
      opportunities.length := by
    rw [List.length_zip, multi_market_fractions_length, min_self]
  have hsnd : ∀ f : KellyResult → ℝ,
      (∀ x : MarketOpportunity × ℝ, f (multi_market_result cfg x.1 x.2) = x.2) →
      (calculate_multi_market_kelly cfg opportunities (some M) bankroll).map
          (fun r => f r.2) =
        multi_market_fractions cfg opportunities bankroll := by
    intro f hf
    unfold calculate_multi_market_kelly
    rw [List.map_map]
    have h : ((fun r : String × KellyResult => f r.2) ∘
        (fun x : MarketOpportunity × ℝ =>
          (x.1.market_id, multi_market_result cfg x.1 x.2))) = Prod.snd := by
      funext x
      exact hf x
    rw [h, List.map_snd_zip]
    exact le_of_eq (multi_market_fractions_length cfg opportunities bankroll)
  have hzero : ∀ f : KellyResult → ℝ,
      (∀ x : MarketOpportunity × ℝ, f (multi_market_result cfg x.1 x.2) = 0) →
      (calculate_multi_market_kelly cfg opportunities (some M) bankroll).map
          (fun r => f r.2) =
        List.replicate opportunities.length 0 := by
    intro f hf
    unfold calculate_multi_market_kelly
    rw [List.map_map]
    have h : ((fun r : String × KellyResult => f r.2) ∘
        (fun x : MarketOpportunity × ℝ =>
          (x.1.market_id, multi_market_result cfg x.1 x.2))) = fun _ => (0 : ℝ) := by
      funext x
      exact hf x
    rw [h, List.map_const', hlen]
  exact ⟨hzero _ (fun x => rfl), hzero _ (fun x => rfl), hsnd _ (fun x => rfl),
    hsnd _ (fun x => rfl), hsnd _ (fun x => rfl)⟩

end
